import Mathlib

/-!
Verification of the CRS construction/normalization core of `rasterio/_crs.pyx`.

The Python/Cython source is shallowly embedded: pure string processing is
translated to executable Lean functions over `List Char`/`String`; the external
geodetic engine (GDAL/OSR) and the standard-library JSON decoder are passed in
as explicit function parameters, since they are outside the module; Python
exceptions become an explicit error type returned through `Except`.
-/

namespace RasterioCRS

/-! ## Python string primitives

Structurally recursive re-implementations of the Python string operations the
source uses (`str.split`, `str.strip`, `str.lstrip`, `str.upper`,
`str.startswith`, `in`, `int()`, `float()`), so that every definition reduces
inside the kernel.  Underscore separators and exotic whitespace in numeric
literals are not modelled.
-/

def isWs (c : Char) : Bool := c.isWhitespace

def plusChar : Char := Char.ofNat 43
def minusChar : Char := Char.ofNat 45
def dotChar : Char := Char.ofNat 46
def colonChar : Char := Char.ofNat 58
def eqChar : Char := Char.ofNat 61
def obrace : Char := Char.ofNat 123
def squote : String := ⟨[Char.ofNat 39]⟩
def braceStr : String := ⟨[obrace]⟩

def splitCharsP (p : Char → Bool) : List Char → List Char → List (List Char)
  | [], acc => [acc.reverse]
  | c :: rest, acc =>
    if p c then acc.reverse :: splitCharsP p rest []
    else splitCharsP p rest (c :: acc)

def pyStrip (s : String) : String :=
  ⟨((s.toList.dropWhile isWs).reverse.dropWhile isWs).reverse⟩

def pySplitWs (s : String) : List String :=
  ((splitCharsP isWs s.toList []).filter (fun l => !l.isEmpty)).map (fun l => ⟨l⟩)

def pySplitOnChar (sep : Char) (s : String) : List String :=
  (splitCharsP (fun c => c = sep) s.toList []).map (fun l => ⟨l⟩)

def pyUpper (s : String) : String := ⟨s.toList.map Char.toUpper⟩

def listStarts : List Char → List Char → Bool
  | [], _ => true
  | _ :: _, [] => false
  | a :: as, b :: bs => a = b && listStarts as bs

def pyStartsWith (s pre : String) : Bool := listStarts pre.toList s.toList

def pyContains (s : String) (c : Char) : Bool := s.toList.contains c

def pyReprStr (s : String) : String := squote ++ s ++ squote

def stripPlusAll (s : String) : String := ⟨s.toList.dropWhile (fun c => c = plusChar)⟩

def digitsToNatAux : List Char → Nat → Option Nat
  | [], acc => some acc
  | c :: r, acc =>
    if c.isDigit then digitsToNatAux r (acc * 10 + (c.toNat - 48)) else none

def pyIntCore (l : List Char) : Option Int :=
  match l with
  | [] => none
  | c :: r =>
    if c = plusChar then
      (if r.isEmpty then none else (digitsToNatAux r 0).map Int.ofNat)
    else if c = minusChar then
      (if r.isEmpty then none else (digitsToNatAux r 0).map (fun n => -(n : Int)))
    else (digitsToNatAux (c :: r) 0).map Int.ofNat

def pyInt (s : String) : Option Int := pyIntCore (pyStrip s).toList

def stripSign (l : List Char) : List Char :=
  match l with
  | [] => []
  | c :: r => if c = plusChar ∨ c = minusChar then r else c :: r

def splitAtExp : List Char → List Char × Option (List Char)
  | [] => ([], none)
  | c :: r =>
    if c = Char.ofNat 101 ∨ c = Char.ofNat 69 then ([], some r)
    else
      let (m, e) := splitAtExp r
      (c :: m, e)

def mantOk (l : List Char) : Bool :=
  let a := l.takeWhile Char.isDigit
  match l.drop a.length with
  | [] => !a.isEmpty
  | c :: r => c = dotChar && r.all Char.isDigit && (!a.isEmpty || !r.isEmpty)

def expOk (l : List Char) : Bool :=
  let r := stripSign l
  !r.isEmpty && r.all Char.isDigit

def lowerList (l : List Char) : List Char := l.map Char.toLower

def pyFloatOk (s : String) : Bool :=
  let t := stripSign (pyStrip s).toList
  let low := lowerList t
  if low = ("inf").toList ∨ low = ("infinity").toList ∨ low = ("nan").toList then true
  else
    let (m, e) := splitAtExp t
    mantOk m && (match e with | none => true | some ex => expOk ex)

def natDigitsAux : Nat → Nat → List Char
  | 0, _ => []
  | fuel + 1, n =>
    if n < 10 then [Nat.digitChar n]
    else natDigitsAux fuel (n / 10) ++ [Nat.digitChar (n % 10)]

def pyStrNat (n : Nat) : String := ⟨natDigitsAux (n + 1) n⟩

def pyStrInt : Int → String
  | .ofNat n => pyStrNat n
  | .negSucc m => ⟨[minusChar]⟩ ++ pyStrNat (m + 1)

/-! ## Parameter values

`ParameterValue` as produced by the source's coercion helper `parse`: boolean,
integer, floating point, or string.  The numeric value of a float is never
inspected by the module, so a float carries the literal that `float()`
accepted; Python's normalizing `str(float)` re-formatting is not modelled.
-/

inductive PValue where
  | bool (b : Bool)
  | int (n : Int)
  | float (lit : String)
  | str (s : String)
deriving DecidableEq, Repr

/-- The source's inner helper `parse` (repeated verbatim at `_crs.pyx:207`,
`:268` and `:337`): case-sensitive boolean literals first, then `int()`,
then `float()`, then the raw string. -/
def pyParseValue (v : String) : PValue :=
  if v = ("True") ∨ v = ("true") then .bool true
  else if v = ("False") ∨ v = ("false") then .bool false
  else
    match pyInt v with
    | some n => .int n
    | none => if pyFloatOk v then .float v else .str v

/-! ## Parameter Key Registry (`all_proj_keys`, `_crs.pyx:475-478`)

The source builds the registry from the `_param_data` table by
`line.split()[0].lstrip("+").strip()` over the non-trivial lines, deduplicated
through a Python `set`, plus the synthetic key `no_mayo`.  Only the first
whitespace-separated token of each table line survives that construction, so
the human-readable descriptions are omitted here; `dedupAux` keeps first
occurrences (the Python `set` iteration order is unspecified, and the module
relies only on membership).
-/

def _param_tokens : List String := [
  ("+a"), ("+alpha"), ("+axis"), ("+b"), ("+datum"), ("+ellps"), ("+init"), ("+k"),
  ("+k_0"), ("+lat_0"), ("+lat_1"), ("+lat_2"), ("+lat_ts"), ("+lon_0"), ("+lonc"),
  ("+lon_wrap"), ("+nadgrids"), ("+no_defs"), ("+over"), ("+pm"), ("+proj"), ("+south"),
  ("+to_meter"), ("+towgs84"), ("+units"), ("+vto_meter"), ("+vunits"), ("+x_0"),
  ("+y_0"), ("+zone"),
  ("+a"), ("+alpha"), ("+azi"), ("+b"), ("+belgium"), ("+beta"), ("+czech"), ("+e"),
  ("+ellps"), ("+es"), ("+f"), ("+gamma"), ("+geoc"), ("+guam"), ("+h"), ("+k"), ("+K"),
  ("+k_0"), ("+lat_0"), ("+lat_1"), ("+lat_2"), ("+lat_b"), ("+lat_t"), ("+lat_ts"),
  ("+lon_0"), ("+lon_1"), ("+lon_2"), ("+lonc"), ("+lsat"), ("+m"), ("+M"), ("+n"),
  ("+no_cut"), ("+no_off"), ("+no_rot"), ("+ns"), ("+o_alpha"), ("+o_lat_1"),
  ("+o_lat_2"), ("+o_lat_c"), ("+o_lat_p"), ("+o_lon_1"), ("+o_lon_2"), ("+o_lon_c"),
  ("+o_lon_p"), ("+o_proj"), ("+over"), ("+p"), ("+path"), ("+proj"), ("+q"), ("+R"),
  ("+R_a"), ("+R_A"), ("+rf"), ("+R_g"), ("+R_h"), ("+R_lat_a"), ("+R_lat_g"), ("+rot"),
  ("+R_V"), ("+s"), ("+south"), ("+sym"), ("+t"), ("+theta"), ("+tilt"), ("+to_meter"),
  ("+units"), ("+vopt"), ("+W"), ("+westo"), ("+x_0"), ("+y_0"), ("+zone")]

def dedupAux : List String → List String → List String
  | [], _ => []
  | x :: xs, seen =>
    if seen.contains x then dedupAux xs seen else x :: dedupAux xs (x :: seen)

def all_proj_keys : List String :=
  dedupAux (_param_tokens.map (fun t => pyStrip (stripPlusAll t))) [] ++ [("no_mayo")]

/-! ## Python dict semantics

`_data` is a Python dict: insertion order preserved, a later write to an
existing key updates the value in place.
-/

def dictInsert (d : List (String × PValue)) (k : String) (v : PValue) :
    List (String × PValue) :=
  if d.any (fun kv => kv.1 = k) then d.map (fun kv => if kv.1 = k then (k, v) else kv)
  else d ++ [(k, v)]

def pyDict (l : List (String × PValue)) : List (String × PValue) :=
  l.foldl (fun d kv => dictInsert d kv.1 kv.2) []

/-! ## The CRS value object -/

structure _CRS where
  _wkt : Option String
  _data : List (String × PValue)
deriving DecidableEq, Repr

/-- `_CRS.__init__` (`_crs.pyx:27-33`): `_wkt` starts as `None`; a truthy
`initialdata` populates `_data` (keyword arguments are then ignored),
otherwise `_data` is built from the keyword arguments.  (The one caller that
passes a possibly-empty sequence passes a generator, which is always truthy
in Python; the resulting dict is empty either way, so the two readings
coincide.) -/
def crsInit (initialdata : Option (List (String × PValue)))
    (kwargs : List (String × PValue)) : _CRS :=
  match initialdata with
  | some l => if l.isEmpty then ⟨none, pyDict kwargs⟩ else ⟨none, pyDict l⟩
  | none => ⟨none, pyDict kwargs⟩

/-- `_CRS.__len__` (`_crs.pyx:41-42`). -/
def crsLen (c : _CRS) : Nat := c._data.length

/-- Python truthiness of a `_CRS`: `collections.Mapping` defines no `__bool__`,
so `not self` falls back to `__len__`. -/
def crsTruthy (c : _CRS) : Bool := crsLen c != 0

def pyStrPValue : PValue → String
  | .bool true => ("True")
  | .bool false => ("False")
  | .int n => pyStrInt n
  | .float lit => lit
  | .str s => s

def joinTokens : List String → String
  | [] => ("")
  | [x] => x
  | x :: xs => x ++ (" ") ++ joinTokens xs

def projJoin (c : _CRS) : String :=
  joinTokens (c._data.map (fun kv => ("+") ++ kv.1 ++ ("=") ++ pyStrPValue kv.2))

/-- `_CRS._wkt_or_proj` (`_crs.pyx:44-45`): `self._wkt or ' '.join(...)` —
note the Python `or`, which falls through to the join when `_wkt` is `None`
or the empty string, and that every entry is formatted `+key=value` via
`'+{}={}'.format`, booleans included. -/
def _wkt_or_proj (c : _CRS) : String :=
  match c._wkt with
  | some w => if w = ("") then projJoin c else w
  | none => projJoin c

/-! ## Tokenizer -/

/-- One PROJ4 token after `lstrip('+')`: `kv = p.split('=')`;
`len(kv) == 2 and (kv[0], parse(kv[1])) or (kv[0], True)` — the and/or idiom
yields the coerced pair only for exactly one `=`, and `(kv[0], True)`
otherwise (a tuple is always truthy). -/
def tokenPair (p : String) : String × PValue :=
  match pySplitOnChar eqChar p with
  | [k, v] => (k, pyParseValue v)
  | kv => (kv.headD (""), PValue.bool true)

/-- `[o.lstrip('+') for o in s.strip().split()]` followed by the per-token
split (`_crs.pyx:205,222-224`, repeated at `:266,283-285` and `:335,352-354`). -/
def projTokenize (s : String) : List (String × PValue) :=
  (pySplitWs (pyStrip s)).map (fun p => tokenPair (stripPlusAll p))

/-- Tokenize, keep only Registry keys, assemble the dict (the comprehension
`{k: v for k, v in items if k in all_proj_keys}`). -/
def projFilterDict (s : String) : List (String × PValue) :=
  pyDict ((projTokenize s).filter (fun kv => all_proj_keys.contains kv.1))

/-! ## Errors and the engine boundary -/

/-- The Python exceptions this module can surface: the domain error `CRSError`,
the built-ins `ValueError` / `TypeError` / `AttributeError`, and an uncaught
engine exception (`CPLE_BaseError` escaping a method with no `except` clause). -/
inductive PyErr where
  | crsError (msg : String)
  | valueError (msg : String)
  | typeError (msg : String)
  | attributeError (msg : String)
  | cpleError (msg : String)
deriving DecidableEq, Repr

/-- The OSR engine boundary: `OSRSetFromUserInput`, `OSRMorphFromESRI`,
`OSRExportToProj4`, `OSRIsGeographic`, `OSRIsProjected`, `OSRIsSame`, each
wrapped so a failure carries the engine's message (`exc_wrap_int` raising
`CPLE_BaseError`).  The handle type `H` is opaque. -/
structure Engine (H : Type) where
  setFromUserInput : String → Except String H
  morphFromESRI : H → Except String H
  exportToProj4 : H → Except String String
  isGeographicH : H → Bool
  isProjectedH : H → Bool
  isSame : H → H → Bool

def osrPipeline {H : Type} (E : Engine H) (s : String) : Except String H :=
  match E.setFromUserInput s with
  | .error e => .error e
  | .ok h => E.morphFromESRI h

/-! ## Python values crossing the public constructors -/

/-- The Python values the polymorphic entry points dispatch on: a string, an
int, a dict, an existing `_CRS`, or anything else (carrying its `repr` for
error messages).  `bool` (a Python `int` subclass) is not modelled. -/
inductive PyVal where
  | pstr (s : String)
  | pint (n : Int)
  | pdict (d : List (String × PValue))
  | pcrs (c : _CRS)
  | pother (r : String)
deriving Repr

def wktParseFail (e : String) : PyErr :=
  .crsError (("The WKT could not be parsed. ") ++ e)

/-- `_CRS.from_wkt` (`_crs.pyx:236-293`): a non-string input raises the
built-in `ValueError` before any engine work; otherwise interpret, apply the
ESRI morph, export a PROJ4 string (any `CPLE_BaseError` becomes a `CRSError`
with the prefix "The WKT could not be parsed. "), then build a CRS whose
`_wkt` is the original text verbatim and whose `_data` is the
Registry-filtered tokenization of the exported PROJ4 string. -/
def from_wkt {H : Type} (E : Engine H) (wkt : PyVal) : Except PyErr _CRS :=
  match wkt with
  | .pstr w =>
    (match E.setFromUserInput w with
     | .error e => .error (wktParseFail e)
     | .ok h =>
       match E.morphFromESRI h with
       | .error e => .error (wktParseFail e)
       | .ok h2 =>
         match E.exportToProj4 h2 with
         | .error e => .error (wktParseFail e)
         | .ok prj => .ok ⟨some w, projFilterDict prj⟩)
  | _ => .error (.valueError ("A string is expected"))

/-- `_CRS.from_epsg` (`_crs.pyx:148-167`): `int(code)` (an uncaught
`ValueError`/`TypeError` for non-integer input), the positivity check, then
`cls(init="epsg:%s" % code, no_defs=True)` — note `%s` uses the original
code object, so a string code is interpolated verbatim. -/
def from_epsg (code : PyVal) : Except PyErr _CRS :=
  match code with
  | .pint n =>
    if n ≤ 0 then .error (.crsError ("EPSG codes are positive integers"))
    else .ok (crsInit none
      [(("init"), .str (("epsg:") ++ pyStrInt n)), (("no_defs"), .bool true)])
  | .pstr v =>
    (match pyInt v with
     | none =>
       .error (.valueError (("invalid literal for int() with base 10: ") ++ pyReprStr v))
     | some n =>
       if n ≤ 0 then .error (.crsError ("EPSG codes are positive integers"))
       else .ok (crsInit none
         [(("init"), .str (("epsg:") ++ v)), (("no_defs"), .bool true)]))
  | _ => .error (.typeError ("int() argument must be a string or a number"))

/-! ## JSON boundary -/

/-- What `json.loads` can hand back, as far as this module looks at it: an
object (restricted here to the flat parameter values the module stores), or
any other JSON value of which only Python truthiness is ever observed. -/
inductive JVal where
  | jobj (pairs : List (String × PValue))
  | jother (truthy : Bool)

def jvTruthy : JVal → Bool
  | .jobj pairs => !pairs.isEmpty
  | .jother t => t

def floatLitZero (lit : String) : Bool :=
  let t := stripSign (pyStrip lit).toList
  let (m, _) := splitAtExp t
  m.all (fun c => c = Char.ofNat 48 ∨ c = dotChar)

def pvTruthy : PValue → Bool
  | .bool b => b
  | .int n => n != 0
  | .float lit => !floatLitZero lit
  | .str s => !s.isEmpty

/-- The call `cls(**mapping)`: each key becomes a keyword argument of
`__init__`.  A key literally named `initialdata` binds the positional
parameter instead of landing in `**kwargs`: if its value is truthy,
`dict(initialdata)` raises `TypeError` on these flat values; if falsy, the
remaining keyword arguments populate `_data`. -/
def crsFromKwargsObj (pairs : List (String × PValue)) : Except PyErr _CRS :=
  match pairs.find? (fun kv => kv.1 = ("initialdata")) with
  | some kv =>
    if pvTruthy kv.2 then .error (.typeError ("cannot convert value to a dict"))
    else .ok (crsInit none (pairs.filter (fun kv2 => !(kv2.1 = ("initialdata")))))
  | none => .ok (crsInit none pairs)

/-- `_CRS.from_string` (`_crs.pyx:169-234`).  Decision order: empty input;
`EPSG:` prefix (case-insensitive on the stripped string, then an exact
two-way split on `:` — more than one `:` raises the unpacking `ValueError`);
a `{` anywhere means JSON; both `+` and `=` mean a PROJ4 parameter string
(tokenize, filter, error if nothing survives); otherwise WKT. -/
def from_string {H : Type} (jsonLoads : String → Except String JVal) (E : Engine H)
    (s : String) : Except PyErr _CRS :=
  if s = ("") then
    .error (.crsError (("CRS is empty or invalid: ") ++ pyReprStr s))
  else if pyStartsWith (pyUpper (pyStrip s)) ("EPSG:") then
    match pySplitOnChar colonChar (pyStrip s) with
    | [_, v] =>
      if v = ("") then .error (.crsError (("Invalid CRS: ") ++ pyReprStr s))
      else from_epsg (.pstr v)
    | _ => .error (.valueError ("too many values to unpack"))
  else if pyContains s obrace then
    match jsonLoads s with
    | .error _ => .error (.crsError ("CRS appears to be JSON but is not valid"))
    | .ok v =>
      if !jvTruthy v then .error (.crsError ("CRS is empty JSON"))
      else
        match v with
        | .jobj pairs => crsFromKwargsObj pairs
        | .jother _ => .error (.typeError ("argument after ** must be a mapping"))
  else if pyContains s plusChar && pyContains s eqChar then
    let out := crsInit
      (some ((projTokenize s).filter (fun kv => all_proj_keys.contains kv.1))) []
    if out._data.isEmpty then
      .error (.crsError (("CRS is empty or invalid: ") ++ s))
    else .ok out
  else from_wkt E (.pstr s)

/-- `_CRS.from_user_input` (`_crs.pyx:295-319`): `isinstance` dispatch in
source order — `_CRS`, `int`, `dict`, string, else `CRSError`. -/
def from_user_input {H : Type} (jsonLoads : String → Except String JVal)
    (E : Engine H) (value : PyVal) : Except PyErr _CRS :=
  match value with
  | .pcrs c => .ok c
  | .pint n => from_epsg (.pint n)
  | .pdict d => crsFromKwargsObj d
  | .pstr s => from_string jsonLoads E s
  | .pother r => .error (.crsError (("CRS is invalid: ") ++ r))

/-! ## Accessors and equality -/

/-- `_CRS.to_dict` (`_crs.pyx:321-361`): a non-empty `_data` is returned as a
copy; otherwise `self._wkt.encode('utf-8')` runs unconditionally — on a CRS
with no cached WKT that is `None.encode`, an `AttributeError` raised before
the `try` block — and then the engine export is re-tokenized and filtered. -/
def to_dict {H : Type} (E : Engine H) (c : _CRS) :
    Except PyErr (List (String × PValue)) :=
  if !c._data.isEmpty then .ok c._data
  else
    match c._wkt with
    | none => .error (.attributeError ("NoneType object has no attribute encode"))
    | some w =>
      match E.setFromUserInput w with
      | .error e => .error (wktParseFail e)
      | .ok h =>
        match E.morphFromESRI h with
        | .error e => .error (wktParseFail e)
        | .ok h2 =>
          match E.exportToProj4 h2 with
          | .error e => .error (wktParseFail e)
          | .ok prj => .ok (projFilterDict prj)

/-- `_CRS.is_geographic` (`_crs.pyx:47-66`): interpret `_wkt_or_proj()`,
morph, classify; a `CPLE_BaseError` is re-raised as `CRSError`. -/
def is_geographic {H : Type} (E : Engine H) (c : _CRS) : Except PyErr Bool :=
  match osrPipeline E (_wkt_or_proj c) with
  | .error e => .error (.crsError e)
  | .ok h => .ok (E.isGeographicH h)

/-- `_CRS.is_projected` (`_crs.pyx:68-84`): same pipeline, but the source has
no `except` clause here, so an engine failure escapes as the raw
`CPLE_BaseError`. -/
def is_projected {H : Type} (E : Engine H) (c : _CRS) : Except PyErr Bool :=
  match osrPipeline E (_wkt_or_proj c) with
  | .error e => .error (.cpleError e)
  | .ok h => .ok (E.isProjectedH h)

/-- Modelled from the spec: `_osr_from_crs` lives in `rasterio/_base.pyx`,
outside the given sources.  Per the spec, it has the engine interpret the
CRS's canonical string form, and engine failures surface as the domain
error. -/
def osr_from_crs {H : Type} (E : Engine H) (c : _CRS) : Except PyErr H :=
  match E.setFromUserInput (_wkt_or_proj c) with
  | .error e => .error (.crsError e)
  | .ok h => .ok h

/-- `_CRS.__eq__` (`_crs.pyx:86-108`): if either side is falsy (zero stored
parameters) the result is `not self and not other`, with no engine
involvement; otherwise both sides are interpreted and compared with
`OSRIsSame`. -/
def crsEq {H : Type} (E : Engine H) (a b : _CRS) : Except PyErr Bool :=
  if !crsTruthy a || !crsTruthy b then .ok (!crsTruthy a && !crsTruthy b)
  else
    match osr_from_crs E a with
    | .error e => .error e
    | .ok h1 =>
      match osr_from_crs E b with
      | .error e => .error e
      | .ok h2 => .ok (E.isSame h1 h2)

/-! ## Concrete engines and JSON stubs used by witnesses and counterexamples -/

/-- An engine that accepts everything and exports a fixed PROJ4 string. -/
def Etriv : Engine Unit where
  setFromUserInput := fun _ => .ok ()
  morphFromESRI := fun h => .ok h
  exportToProj4 := fun _ => .ok ("+proj=longlat +datum=WGS84 +no_defs")
  isGeographicH := fun _ => true
  isProjectedH := fun _ => false
  isSame := fun _ _ => true

/-- An engine whose interpretation step always fails. -/
def Efail : Engine Unit where
  setFromUserInput := fun _ => .error ("boom")
  morphFromESRI := fun h => .ok h
  exportToProj4 := fun _ => .ok ("")
  isGeographicH := fun _ => false
  isProjectedH := fun _ => false
  isSame := fun _ _ => false

/-- A JSON decoder that always reports a parse failure. -/
def jlTriv : String → Except String JVal := fun _ => .error ("")

/-- A JSON decoder that always returns one fixed non-empty object with an
unrecognized key. -/
def jlObj : String → Except String JVal :=
  fun _ => .ok (.jobj [(("bogus"), PValue.int 1)])

/-- True exactly when a result is a raised `CRSError`. -/
def raisesCRS {α : Type} : Except PyErr α → Bool
  | .error (.crsError _) => true
  | _ => false

/-- True exactly when a result is a successfully returned empty mapping. -/
def isOkEmpty : Except PyErr (List (String × PValue)) → Bool
  | .ok [] => true
  | _ => false

/-! ## Helper lemmas -/

theorem dictInsert_keyP (P : String → Prop) (d : List (String × PValue)) (k : String)
    (v : PValue) (hd : ∀ kv ∈ d, P kv.1) (hk : P k) :
    ∀ kv ∈ dictInsert d k v, P kv.1 := by
  intro kv hkv
  unfold dictInsert at hkv
  split at hkv
  · rcases List.mem_map.mp hkv with ⟨a, ha, hEq⟩
    by_cases h : a.1 = k
    · rw [if_pos h] at hEq
      subst hEq
      exact hk
    · rw [if_neg h] at hEq
      subst hEq
      exact hd a ha
  · rcases List.mem_append.mp hkv with h | h
    · exact hd kv h
    · rw [List.mem_singleton] at h
      subst h
      exact hk

theorem pyDictFold_keyP (P : String → Prop) :
    ∀ (l d : List (String × PValue)), (∀ kv ∈ d, P kv.1) → (∀ kv ∈ l, P kv.1) →
      ∀ kv ∈ l.foldl (fun acc kv => dictInsert acc kv.1 kv.2) d, P kv.1 := by
  intro l
  induction l with
  | nil => intro d hd _ kv hkv; exact hd kv hkv
  | cons x xs ih =>
    intro d hd hl kv hkv
    simp only [List.foldl_cons] at hkv
    exact ih (dictInsert d x.1 x.2)
      (dictInsert_keyP P d x.1 x.2 hd (hl x (List.mem_cons_self x xs)))
      (fun kv2 h2 => hl kv2 (List.mem_cons_of_mem x h2)) kv hkv

theorem pyDict_keyP (P : String → Prop) (l : List (String × PValue))
    (hl : ∀ kv ∈ l, P kv.1) : ∀ kv ∈ pyDict l, P kv.1 :=
  pyDictFold_keyP P l [] (fun kv h => absurd h (List.not_mem_nil kv)) hl

/-- Every key of a Registry-filtered tokenization is a Registry member. -/
theorem projFilterDict_keys (s : String) :
    ∀ kv ∈ projFilterDict s, all_proj_keys.contains kv.1 = true := by
  unfold projFilterDict
  exact pyDict_keyP (fun k => all_proj_keys.contains k = true) _
    (fun kv hkv => by simpa using (List.mem_filter.mp hkv).2)

/-- A successful `from_wkt` stores only Registry keys. -/
theorem from_wkt_keys {H : Type} (E : Engine H) (w : PyVal) (c : _CRS)
    (hok : from_wkt E w = .ok c) :
    ∀ kv ∈ c._data, all_proj_keys.contains kv.1 = true := by
  unfold from_wkt at hok
  split at hok
  · rename_i w'
    split at hok
    · exact absurd hok (by simp)
    · split at hok
      · exact absurd hok (by simp)
      · split at hok
        · exact absurd hok (by simp)
        · rename_i prj _
          cases hok
          exact projFilterDict_keys prj
  · exact absurd hok (by simp)

theorem pyDict_init_nodefs (v1 v2 : PValue) :
    pyDict [(("init"), v1), (("no_defs"), v2)] = [(("init"), v1), (("no_defs"), v2)] := rfl

/-- A successful `from_epsg` stores exactly the Registry keys `init` and
`no_defs`. -/
theorem from_epsg_keys (code : PyVal) (c : _CRS)
    (hok : from_epsg code = .ok c) :
    ∀ kv ∈ c._data, all_proj_keys.contains kv.1 = true := by
  have hinit : all_proj_keys.contains (("init")) = true := by decide
  have hnod : all_proj_keys.contains (("no_defs")) = true := by decide
  unfold from_epsg at hok
  split at hok
  · split at hok
    · exact absurd hok (by simp)
    · cases hok
      intro kv hkv
      simp only [crsInit, pyDict_init_nodefs] at hkv
      rcases List.mem_cons.mp hkv with h | h
      · rw [h]; exact hinit
      · rw [List.mem_singleton] at h; rw [h]; exact hnod
  · split at hok
    · exact absurd hok (by simp)
    · split at hok
      · exact absurd hok (by simp)
      · cases hok
        intro kv hkv
        simp only [crsInit, pyDict_init_nodefs] at hkv
        rcases List.mem_cons.mp hkv with h | h
        · rw [h]; exact hinit
        · rw [List.mem_singleton] at h; rw [h]; exact hnod
  · exact absurd hok (by simp)

theorem crsTruthy_eq (c : _CRS) : crsTruthy c = !c._data.isEmpty := by
  obtain ⟨w, d⟩ := c
  cases d <;> rfl

theorem pyContains_empty_obrace : pyContains ("") obrace = false := rfl

/-- On every brace-free input, a successful `from_string` stores only Registry
keys: the empty string errors out, the EPSG branch stores `init`/`no_defs`,
the PROJ4 branch filters explicitly, and the WKT branch filters the engine
export.  (The JSON branch — the one unfiltered path — is exactly the inputs
containing a brace.) -/
theorem from_string_no_brace_keys {H : Type} (jl : String → Except String JVal)
    (E : Engine H) (s : String) (c : _CRS)
    (hb : pyContains s obrace = false) (hok : from_string jl E s = .ok c) :
    ∀ kv ∈ c._data, all_proj_keys.contains kv.1 = true := by
  unfold from_string at hok
  split at hok
  · exact absurd hok (by simp)
  · split at hok
    · split at hok
      · split at hok
        · exact absurd hok (by simp)
        · exact from_epsg_keys _ _ hok
      · exact absurd hok (by simp)
    · split at hok
      · rename_i hbr
        rw [hb] at hbr
        exact absurd hbr (by simp)
      · split at hok
        · simp only [] at hok
          split at hok
          · exact absurd hok (by simp)
          · cases hok
            intro kv hkv
            simp only [crsInit] at hkv
            split at hkv
            · simp [pyDict] at hkv
            · exact pyDict_keyP (fun k => all_proj_keys.contains k = true) _
                (fun kv2 hkv2 => by simpa using (List.mem_filter.mp hkv2).2) kv hkv
        · exact from_wkt_keys E _ _ hok

/-! ## Claims -/

/-- C1 counterexample: on a WKT input the engine accepts (here exporting the
PROJ4 string "+proj=longlat +datum=WGS84 +no_defs"), `from_wkt` returns a CRS
whose cached WKT is the verbatim input but whose parameters mapping is NOT
empty — it already holds the tokenized export — refuting the claimed empty
mapping and lazy, on-demand derivation. -/
theorem C1_counterexample :
    from_wkt Etriv (.pstr ("GEOGCS[test]")) =
      .ok ⟨some ("GEOGCS[test]"),
        [(("proj"), PValue.str ("longlat")), (("datum"), PValue.str ("WGS84")),
         (("no_defs"), PValue.bool true)]⟩ ∧
    ([(("proj"), PValue.str ("longlat")), (("datum"), PValue.str ("WGS84")),
      (("no_defs"), PValue.bool true)] = ([] : List (String × PValue))) = False := by
  constructor
  · rfl
  · simp

/-- C1 (amended): for every WKT string the engine pipeline accepts,
`from_wkt` returns a CRS whose cached WKT equals the original input text
verbatim and whose parameters mapping is populated eagerly, at construction
time, with the Registry-filtered tokenization of the PROJ4 string the engine
exports — not left empty for lazy derivation. -/
theorem C1_amended {H : Type} (E : Engine H) (w : String) (h1 h2 : H) (prj : String)
    (e1 : E.setFromUserInput w = .ok h1) (e2 : E.morphFromESRI h1 = .ok h2)
    (e3 : E.exportToProj4 h2 = .ok prj) :
    from_wkt E (.pstr w) = .ok ⟨some w, projFilterDict prj⟩ := by
  simp only [from_wkt, e1, e2, e3]

/-- C1 witness: the amended theorem applied to a concrete engine and input. -/
theorem C1_amended_witness :
    from_wkt Etriv (.pstr ("GEOGCS[x]")) =
      .ok ⟨some ("GEOGCS[x]"), projFilterDict ("+proj=longlat +datum=WGS84 +no_defs")⟩ :=
  C1_amended Etriv ("GEOGCS[x]") () () ("+proj=longlat +datum=WGS84 +no_defs") rfl rfl rfl

/-- C2 counterexample: the direct mapping constructor stores the key `bogus`
even though it is not in the Registry: keys are NOT dropped on this
construction path (nor on the JSON / dict paths, which reuse it). -/
theorem C2_counterexample :
    (crsInit (some [(("bogus"), PValue.int 1)]) [])._data = [(("bogus"), PValue.int 1)] ∧
    all_proj_keys.contains ("bogus") = false := by
  constructor
  · rfl
  · decide

/-- C2 (amended): Registry filtering happens only on the tokenizer-backed
paths.  First part: on every brace-free input (empty / EPSG / PROJ4 / WKT
branches) a successful `from_string` stores only Registry keys.  Second
part: the direct mapping constructor performs no filtering at all — it
stores the given pairs verbatim (up to Python dict deduplication). -/
theorem C2_amended :
    (∀ (H : Type) (jl : String → Except String JVal) (E : Engine H) (s : String)
       (c : _CRS), pyContains s obrace = false → from_string jl E s = .ok c →
       ∀ kv ∈ c._data, all_proj_keys.contains kv.1 = true) ∧
    (∀ l : List (String × PValue), l ≠ [] → (crsInit (some l) [])._data = pyDict l) := by
  constructor
  · intro H jl E s c hb hok
    exact from_string_no_brace_keys jl E s c hb hok
  · intro l hl
    simp only [crsInit]
    rw [if_neg (by simpa using hl)]

/-- C2 witness: both parts of the amended theorem at concrete inputs. -/
theorem C2_amended_witness :
    all_proj_keys.contains ("proj") = true ∧
    (crsInit (some [(("bogus"), PValue.int 1)]) [])._data = pyDict [(("bogus"), PValue.int 1)] := by
  constructor
  · exact C2_amended.1 Unit jlTriv Etriv ("+proj=longlat")
      ⟨none, [(("proj"), PValue.str ("longlat"))]⟩ rfl rfl
      (("proj"), PValue.str ("longlat")) (by simp)
  · exact C2_amended.2 [(("bogus"), PValue.int 1)] (by simp)

/-- C3 counterexample: non-string input to `from_wkt` — a failure the claim
says surfaces as the 'invalid CRS' kind — raises the built-in `ValueError`,
a distinct error type. -/
theorem C3_counterexample :
    from_wkt Etriv (.pint 42) = .error (.valueError ("A string is expected")) ∧
    raisesCRS (from_wkt Etriv (.pint 42)) = false := by
  constructor
  · rfl
  · rfl

/-- C3 (amended): empty input, non-positive EPSG codes, malformed JSON,
empty-after-filtering parameter sets, and engine failures during WKT
interpretation are all raised as the domain error `CRSError`; but a
non-integer EPSG code raises the built-in `ValueError` from `int()`, and
non-string input to `from_wkt` raises `ValueError`, so not every failure
surfaces as the single domain error kind. -/
theorem C3_amended :
    (∀ (H : Type) (jl : String → Except String JVal) (E : Engine H),
       from_string jl E ("") =
         .error (.crsError (("CRS is empty or invalid: ") ++ pyReprStr (""))))
  ∧ (∀ n : Int, n ≤ 0 →
       from_epsg (.pint n) = .error (.crsError ("EPSG codes are positive integers")))
  ∧ (∀ (H : Type) (jl : String → Except String JVal) (E : Engine H) (s m : String),
       pyContains s obrace = true →
       pyStartsWith (pyUpper (pyStrip s)) ("EPSG:") = false →
       jl s = .error m →
       from_string jl E s = .error (.crsError ("CRS appears to be JSON but is not valid")))
  ∧ (∀ (H : Type) (jl : String → Except String JVal) (E : Engine H),
       from_string jl E ("+bogus_key=5") =
         .error (.crsError ("CRS is empty or invalid: +bogus_key=5")))
  ∧ (∀ (H : Type) (E : Engine H) (w e : String), E.setFromUserInput w = .error e →
       from_wkt E (.pstr w) = .error (.crsError (("The WKT could not be parsed. ") ++ e)))
  ∧ (∀ (H : Type) (E : Engine H) (n : Int),
       from_wkt E (.pint n) = .error (.valueError ("A string is expected")))
  ∧ (∀ v : String, pyInt v = none →
       from_epsg (.pstr v) =
         .error (.valueError (("invalid literal for int() with base 10: ") ++ pyReprStr v))) := by
  refine ⟨fun H jl E => rfl, ?_, ?_, fun H jl E => rfl, ?_, fun H E n => rfl, ?_⟩
  · intro n hn
    simp only [from_epsg]
    rw [if_pos hn]
  · intro H jl E s m hbr heps hjl
    have hne : ¬ s = ("") := by
      intro he
      rw [he] at hbr
      exact absurd hbr (by decide)
    unfold from_string
    rw [if_neg hne]
    rw [if_neg (by simp [heps])]
    rw [if_pos (by simp [hbr])]
    rw [hjl]
  · intro H E w e hw
    simp only [from_wkt, hw, wktParseFail]
  · intro v hv
    simp only [from_epsg, hv]

/-- C3 witness: the amended theorem applied at concrete failing inputs,
including an engine that rejects everything. -/
theorem C3_amended_witness :
    from_epsg (.pint 0) = .error (.crsError ("EPSG codes are positive integers")) ∧
    from_string jlTriv Etriv braceStr =
      .error (.crsError ("CRS appears to be JSON but is not valid")) ∧
    from_wkt Efail (.pstr ("GEOGCS[w]")) =
      .error (.crsError ("The WKT could not be parsed. boom")) ∧
    from_epsg (.pstr ("abc")) =
      .error (.valueError ("invalid literal for int() with base 10: 'abc'")) := by
  refine ⟨C3_amended.2.1 0 (by decide), ?_, ?_, ?_⟩
  · exact C3_amended.2.2.1 Unit jlTriv Etriv braceStr ("") rfl rfl rfl
  · exact C3_amended.2.2.2.2.1 Unit Efail ("GEOGCS[w]") ("boom") rfl
  · exact C3_amended.2.2.2.2.2.2 ("abc") rfl

/-- C4 counterexample: the token `+towgs84=1=2` contains `=`; the claim says
it is split once on `=` into `(towgs84, "1=2")` with the raw remainder
coerced (here staying the string "1=2"), but the code splits on every `=`
and maps any token that does not split into exactly two pieces to
`(key, True)`. -/
theorem C4_counterexample :
    projTokenize ("+towgs84=1=2") = [(("towgs84"), PValue.bool true)] ∧
    (projTokenize ("+towgs84=1=2") = [(("towgs84"), PValue.str ("1=2"))]) = False := by
  constructor
  · rfl
  · simp only [eq_iff_iff, iff_false]
    decide

/-- C4 (amended): each whitespace-separated token is stripped of ALL leading
`+` characters and split on EVERY `=`; a token whose split has exactly two
pieces yields the coerced pair, while a token with no `=` or with two or
more `=` becomes `(firstPiece, true)`; the coercion chain itself is as the
claim states it — the four case-sensitive boolean spellings, then integer
parse, then float parse, then the raw string. -/
theorem C4_amended :
    (∀ (p x : String), pySplitOnChar eqChar p = [x] →
       tokenPair p = (x, PValue.bool true))
  ∧ (∀ (p k v : String), pySplitOnChar eqChar p = [k, v] →
       tokenPair p = (k, pyParseValue v))
  ∧ (∀ (p k a b : String) (rest : List String),
       pySplitOnChar eqChar p = k :: a :: b :: rest →
       tokenPair p = (k, PValue.bool true))
  ∧ (pyParseValue ("true") = PValue.bool true ∧ pyParseValue ("True") = PValue.bool true
       ∧ pyParseValue ("false") = PValue.bool false
       ∧ pyParseValue ("False") = PValue.bool false
       ∧ pyParseValue ("TRUE") = PValue.str ("TRUE")
       ∧ pyParseValue ("5") = PValue.int 5
       ∧ pyParseValue ("5.5") = PValue.float ("5.5")
       ∧ pyParseValue ("longlat") = PValue.str ("longlat"))
  ∧ (∀ (v : String) (n : Int),
       ¬ (v = ("True") ∨ v = ("true")) → ¬ (v = ("False") ∨ v = ("false")) →
       pyInt v = some n → pyParseValue v = PValue.int n)
  ∧ (∀ v : String,
       ¬ (v = ("True") ∨ v = ("true")) → ¬ (v = ("False") ∨ v = ("false")) →
       pyInt v = none → pyFloatOk v = false → pyParseValue v = PValue.str v)
  ∧ projTokenize ("++proj=aea") = [(("proj"), PValue.str ("aea"))] := by
  refine ⟨?_, ?_, ?_, by decide, ?_, ?_, rfl⟩
  · intro p x h
    unfold tokenPair
    rw [h]
    rfl
  · intro p k v h
    unfold tokenPair
    rw [h]
  · intro p k a b rest h
    unfold tokenPair
    rw [h]
    rfl
  · intro v n h1 h2 hint
    simp only [pyParseValue, hint]
    rw [if_neg h1, if_neg h2]
  · intro v h1 h2 hint hfl
    simp only [pyParseValue, hint, hfl]
    rw [if_neg h1, if_neg h2]
    simp

/-- C4 witness: the amended theorem applied to concrete tokens. -/
theorem C4_amended_witness :
    tokenPair ("k_0=0.5") = (("k_0"), pyParseValue ("0.5")) ∧
    tokenPair ("south") = (("south"), PValue.bool true) ∧
    tokenPair ("towgs84=1=2") = (("towgs84"), PValue.bool true) ∧
    pyParseValue ("WGS84") = PValue.str ("WGS84") := by
  refine ⟨C4_amended.2.1 ("k_0=0.5") ("k_0") ("0.5") rfl,
    C4_amended.1 ("south") ("south") rfl,
    C4_amended.2.2.1 ("towgs84=1=2") ("towgs84") ("1") ("2") [] rfl,
    C4_amended.2.2.2.2.2.1 ("WGS84") (by decide) (by decide) rfl rfl⟩

/-- C5: for any engine and JSON decoder (neither is consulted on the PROJ4
path), `from_string` on "+proj=longlat +datum=WGS84 +no_defs" yields exactly
the mapping proj="longlat", datum="WGS84", no_defs=true; an unrecognized
token like "+bogus_key=5" is silently absent; and when nothing survives the
Registry filter the call fails with "CRS is empty or invalid". -/
theorem C5_thm : ∀ (H : Type) (jl : String → Except String JVal) (E : Engine H),
    from_string jl E ("+proj=longlat +datum=WGS84 +no_defs") =
      .ok ⟨none, [(("proj"), PValue.str ("longlat")), (("datum"), PValue.str ("WGS84")),
        (("no_defs"), PValue.bool true)]⟩ ∧
    from_string jl E ("+proj=longlat +bogus_key=5") =
      .ok ⟨none, [(("proj"), PValue.str ("longlat"))]⟩ ∧
    from_string jl E ("+bogus_key=5") =
      .error (.crsError ("CRS is empty or invalid: +bogus_key=5")) := by
  intro H jl E
  exact ⟨rfl, rfl, rfl⟩

/-- C5 witness: the theorem instantiated at a concrete engine and decoder. -/
theorem C5_witness :
    from_string jlTriv Etriv ("+proj=longlat +datum=WGS84 +no_defs") =
      .ok ⟨none, [(("proj"), PValue.str ("longlat")), (("datum"), PValue.str ("WGS84")),
        (("no_defs"), PValue.bool true)]⟩ :=
  (C5_thm Unit jlTriv Etriv).1

/-- C6: on any input containing a brace and not starting (case-insensitively,
trimmed) with "EPSG:", `from_string` consults the JSON decoder: a decode
failure raises exactly "CRS appears to be JSON but is not valid"; a decoded
falsy value raises exactly "CRS is empty JSON"; and a decoded non-empty
object is stored as the parameters mapping with no Registry filtering (the
pairs go in verbatim, up to Python dict key deduplication — stated here for
objects not using the reserved keyword name `initialdata`). -/
theorem C6_thm : ∀ (H : Type) (jl : String → Except String JVal) (E : Engine H)
    (s : String), pyContains s obrace = true →
    pyStartsWith (pyUpper (pyStrip s)) ("EPSG:") = false →
    ((∀ m : String, jl s = .error m →
        from_string jl E s = .error (.crsError ("CRS appears to be JSON but is not valid")))
     ∧ (∀ v : JVal, jl s = .ok v → jvTruthy v = false →
        from_string jl E s = .error (.crsError ("CRS is empty JSON")))
     ∧ (∀ pairs : List (String × PValue), jl s = .ok (.jobj pairs) → pairs ≠ [] →
        pairs.all (fun kv => !(kv.1 = ("initialdata"))) = true →
        from_string jl E s = .ok ⟨none, pyDict pairs⟩)) := by
  intro H jl E s hbr heps
  have hne : ¬ s = ("") := by
    intro he
    rw [he] at hbr
    exact absurd hbr (by decide)
  refine ⟨?_, ?_, ?_⟩
  · intro m hjl
    unfold from_string
    rw [if_neg hne, if_neg (by simp [heps]), if_pos (by simp [hbr]), hjl]
  · intro v hjl hfal
    unfold from_string
    rw [if_neg hne, if_neg (by simp [heps]), if_pos (by simp [hbr]), hjl]
    simp [hfal]
  · intro pairs hjl hnonempty hnoinit
    have hemp : pairs.isEmpty = false := by
      cases pairs with
      | nil => exact absurd rfl hnonempty
      | cons x xs => rfl
    have hfind : pairs.find? (fun kv => kv.1 = ("initialdata")) = none := by
      rw [List.find?_eq_none]
      intro kv hkv
      simpa using List.all_eq_true.mp hnoinit kv hkv
    unfold from_string
    rw [if_neg hne, if_neg (by simp [heps]), if_pos (by simp [hbr]), hjl]
    simp [jvTruthy, hemp, crsFromKwargsObj, hfind, crsInit]

/-- C6 witness: all three behaviors at the concrete one-brace input, with a
failing decoder, an empty-object decoder, and a non-empty-object decoder. -/
theorem C6_witness :
    from_string jlTriv Etriv braceStr =
      .error (.crsError ("CRS appears to be JSON but is not valid")) ∧
    from_string (fun _ => .ok (.jobj [])) Etriv braceStr =
      .error (.crsError ("CRS is empty JSON")) ∧
    from_string jlObj Etriv braceStr =
      .ok ⟨none, pyDict [(("bogus"), PValue.int 1)]⟩ := by
  refine ⟨(C6_thm Unit jlTriv Etriv braceStr rfl rfl).1 ("") rfl, ?_, ?_⟩
  · exact (C6_thm Unit (fun _ => .ok (.jobj [])) Etriv braceStr rfl rfl).2.1
      (.jobj []) rfl rfl
  · exact (C6_thm Unit jlObj Etriv braceStr rfl rfl).2.2
      [(("bogus"), PValue.int 1)] rfl (by simp) (by decide)

/-- C7 counterexample: a boolean flag whose value is true renders as
`+key=True` (Python's `'+{}={}'.format`), not as `+key` alone as the claim
states. -/
theorem C7_counterexample :
    _wkt_or_proj ⟨none, [(("no_defs"), PValue.bool true)]⟩ = ("+no_defs=True") ∧
    (_wkt_or_proj ⟨none, [(("no_defs"), PValue.bool true)]⟩ = ("+no_defs")) = False := by
  constructor
  · rfl
  · simp only [eq_iff_iff, iff_false]
    decide

/-- C7 (amended): the canonical string form is the cached WKT when present
and non-empty, and otherwise the whitespace join of `+key=str(value)` tokens
in mapping order; a true boolean flag renders as `+key=True`, which still
round-trips through the tokenizer to the boolean `true`; `is_geographic`
consults only that canonical form, so a cached WKT makes the stored
parameters irrelevant to it. -/
theorem C7_amended :
    (∀ (w : String) (d : List (String × PValue)), ¬ w = ("") →
       _wkt_or_proj ⟨some w, d⟩ = w)
  ∧ _wkt_or_proj ⟨none, [(("proj"), PValue.str ("longlat")), (("no_defs"), PValue.bool true)]⟩
      = ("+proj=longlat +no_defs=True")
  ∧ projTokenize ("+proj=longlat +no_defs=True")
      = [(("proj"), PValue.str ("longlat")), (("no_defs"), PValue.bool true)]
  ∧ (∀ (H : Type) (E : Engine H) (w : String) (d : List (String × PValue)), ¬ w = ("") →
       is_geographic E ⟨some w, d⟩ = is_geographic E ⟨some w, []⟩) := by
  have hw : ∀ (w : String) (d : List (String × PValue)), ¬ w = ("") →
      _wkt_or_proj ⟨some w, d⟩ = w := by
    intro w d hne
    simp only [_wkt_or_proj]
    rw [if_neg hne]
  refine ⟨hw, rfl, rfl, ?_⟩
  intro H E w d hne
  unfold is_geographic
  rw [hw w d hne, hw w [] hne]

/-- C7 witness: the amended theorem at a concrete cached WKT and engine. -/
theorem C7_amended_witness :
    _wkt_or_proj ⟨some ("GEOGCS[a]"), [(("proj"), PValue.str ("x"))]⟩ = ("GEOGCS[a]") ∧
    is_geographic Etriv ⟨some ("GEOGCS[a]"), [(("proj"), PValue.str ("x"))]⟩ =
      is_geographic Etriv ⟨some ("GEOGCS[a]"), []⟩ :=
  ⟨C7_amended.1 ("GEOGCS[a]") [(("proj"), PValue.str ("x"))] (by decide),
   C7_amended.2.2.2 Unit Etriv ("GEOGCS[a]") [(("proj"), PValue.str ("x"))] (by decide)⟩

/-- C8: equality short-circuits on emptiness for EVERY engine — whenever
either operand has no stored parameters the result is exactly "both are
empty", with no engine dependence; `CRS() == CRS()` is true; and equality is
reflexive, for empty CRS unconditionally and for non-empty CRS whenever the
engine interprets its canonical form and its equivalence test is reflexive
(`OSRIsSame(h, h) == 1`). -/
theorem C8_thm :
    (∀ (H : Type) (E : Engine H) (a b : _CRS), a._data = [] ∨ b._data = [] →
       crsEq E a b = .ok (decide (a._data = [] ∧ b._data = [])))
  ∧ (∀ (H : Type) (E : Engine H), crsEq E (crsInit none []) (crsInit none []) = .ok true)
  ∧ (∀ (H : Type) (E : Engine H) (a : _CRS), a._data = [] → crsEq E a a = .ok true)
  ∧ (∀ (H : Type) (E : Engine H) (a : _CRS) (h : H),
       (∀ g : H, E.isSame g g = true) →
       E.setFromUserInput (_wkt_or_proj a) = .ok h →
       crsEq E a a = .ok true) := by
  refine ⟨?_, fun H E => rfl, ?_, ?_⟩
  · intro H E a b hemp
    obtain ⟨wa, da⟩ := a
    obtain ⟨wb, db⟩ := b
    rcases hemp with h | h
    · simp only at h
      subst h
      cases db <;> rfl
    · simp only at h
      subst h
      cases da <;> rfl
  · intro H E a h
    obtain ⟨wa, da⟩ := a
    simp only at h
    subst h
    rfl
  · intro H E a h hsame hset
    obtain ⟨wa, da⟩ := a
    cases da with
    | nil => rfl
    | cons x xs =>
      unfold crsEq
      rw [if_neg (by simp [crsTruthy, crsLen])]
      unfold osr_from_crs
      rw [hset]
      simp [hsame h]

/-- C8 witness: emptiness short-circuit and reflexivity at concrete CRS
values and a concrete engine. -/
theorem C8_witness :
    crsEq Etriv ⟨none, []⟩ ⟨none, [(("proj"), PValue.str ("x"))]⟩ = .ok false ∧
    crsEq Etriv (crsInit none []) (crsInit none []) = .ok true ∧
    crsEq Etriv ⟨none, [(("proj"), PValue.str ("x"))]⟩
      ⟨none, [(("proj"), PValue.str ("x"))]⟩ = .ok true := by
  refine ⟨?_, C8_thm.2.1 Unit Etriv, ?_⟩
  · exact C8_thm.1 Unit Etriv ⟨none, []⟩ ⟨none, [(("proj"), PValue.str ("x"))]⟩ (Or.inl rfl)
  · exact C8_thm.2.2.2 Unit Etriv ⟨none, [(("proj"), PValue.str ("x"))]⟩ ()
      (fun g => rfl) rfl

/-- C9: for any engine, `to_dict` on a CRS with no stored parameters and no
cached WKT (such as `CRS()`) hits the WKT branch, which unconditionally
encodes the absent `_wkt`: the call fails with an `AttributeError` on the
null WKT — it neither returns an empty mapping nor raises the domain
`CRSError`. -/
theorem C9_thm : ∀ (H : Type) (E : Engine H),
    to_dict E (crsInit none []) =
      .error (.attributeError ("NoneType object has no attribute encode")) ∧
    raisesCRS (to_dict E (crsInit none [])) = false ∧
    isOkEmpty (to_dict E (crsInit none [])) = false := by
  intro H E
  exact ⟨rfl, rfl, rfl⟩

/-- C9 witness: the theorem at a concrete engine. -/
theorem C9_witness :
    to_dict Etriv (crsInit none []) =
      .error (.attributeError ("NoneType object has no attribute encode")) :=
  (C9_thm Unit Etriv).1

/-- C10: the length, the truth value, and the emptiness test used by
equality are determined solely by the number of stored parameters — the
cached WKT is ignored — so any CRS with zero stored parameters counts as
empty and compares equal to `CRS()` for every engine, even when it holds a
cached WKT. -/
theorem C10_thm : ∀ (w : Option String) (d : List (String × PValue)),
    crsLen ⟨w, d⟩ = d.length ∧
    crsTruthy ⟨w, d⟩ = !d.isEmpty ∧
    (∀ (H : Type) (E : Engine H),
      crsEq E ⟨w, []⟩ (crsInit none []) = .ok true ∧
      crsEq E (crsInit none []) ⟨w, []⟩ = .ok true) := by
  intro w d
  refine ⟨rfl, ?_, fun H E => ⟨rfl, rfl⟩⟩
  cases d <;> rfl

/-- C10 witness: the theorem at a CRS that holds a cached WKT but no
parameters. -/
theorem C10_witness :
    crsLen ⟨some ("GEOGCS[b]"), []⟩ = 0 ∧
    crsTruthy ⟨some ("GEOGCS[b]"), []⟩ = false ∧
    crsEq Etriv ⟨some ("GEOGCS[b]"), []⟩ (crsInit none []) = .ok true := by
  refine ⟨(C10_thm (some ("GEOGCS[b]")) []).1, (C10_thm (some ("GEOGCS[b]")) []).2.1, ?_⟩
  exact ((C10_thm (some ("GEOGCS[b]")) []).2.2 Unit Etriv).1
